import Mathlib

/-!
Shallow embedding of the video-hosting backend's signed-asset resolver and
upload handlers.

Strings are modelled as lists of characters (`Str`); Go's `strings.HasPrefix`
and `strings.Split` (with a one-character separator, the only way the code
uses it) become `goStartsWith` and `goSplit`.  The relational store, the
local asset directory and the object store are an explicit `World` record
threaded through the handlers; external collaborators (JWT validation, MIME
parsing, the outcomes of I/O calls) are oracle parameters bundled in `Ext`,
so every theorem quantifies over their behaviour.
-/

/-- Strings of the embedded program: Go strings as lists of characters. -/
abbrev Str := List Char

/-- Go `strings.HasPrefix s pre`: `pre` is a prefix of `s`. -/
def goStartsWith (s pre : Str) : Bool :=
  decide (pre <+: s)

/-- Go `strings.Contains s sub`: `sub` occurs contiguously inside `s`. -/
def goContains (s sub : Str) : Bool :=
  decide (sub <:+: s)

/-- Go `strings.Split s sep` for a one-character separator `c`: the maximal
run of substrings of `s` separated by `c`.  Always returns at least one
element, and `n + 1` elements when `c` occurs `n` times in `s`. -/
def goSplit (c : Char) : Str → List Str
  | [] => [[]]
  | x :: xs =>
    match goSplit c xs with
    | [] => [[x]]
    | y :: ys => if x = c then [] :: y :: ys else (x :: y) :: ys

/-- Modelled from the spec: `database.Video`, the Video metadata record of the
relational store (its Go definition lives in `internal/database`, outside the
given files).  Per the spec's data model it carries an id, the owning user id,
descriptive fields, and optional thumbnail and media references. -/
structure Video where
  id : Nat
  userID : Nat
  title : Str
  description : Str
  thumbnailURL : Option Str
  videoURL : Option Str
deriving DecidableEq, Repr

/-- The fields of `apiConfig` the embedded code reads (the db handle and the
S3 client are modelled separately, as `World` state and oracles). -/
structure APIConfig where
  jwtSecret : Str
  assetsRoot : Str
  s3Bucket : Str
  s3Region : Str
  s3CfDistribution : Str
  port : Str
deriving DecidableEq, Repr

/-- The expiry argument the resolver passes to the presigner:
`15*60*1e9` nanoseconds, from `main.go` line 42. -/
def signingExpiryNs : Nat := 15 * 60 * 1000000000

/-- The type of the presigning collaborator `generatePresignedURL`:
bucket, key and expiry (nanoseconds) to either an error or a signed URL. -/
abbrev Signer := Str → Str → Nat → Except Str Str

/-- `(cfg *apiConfig) dbVideoToSignedVideo` from `main.go`: if the stored
media reference is absent or does not start with the configured bucket name
and a comma, the video is returned unchanged; otherwise the reference is
split on commas, elements 0 and 1 are presigned with `signingExpiryNs`, and
the signed URL replaces the media reference.  A signing error aborts the
whole resolve. -/
def dbVideoToSignedVideo (cfg : APIConfig) (sign : Signer) (video : Video) :
    Except Str Video :=
  match video.videoURL with
  | none => .ok video
  | some url =>
    if goStartsWith url (cfg.s3Bucket ++ [',']) then
      let s3Details := goSplit ',' url
      let s3Bucket := s3Details.getD 0 []
      let s3Key := s3Details.getD 1 []
      match sign s3Bucket s3Key signingExpiryNs with
      | .error e => .error e
      | .ok signedURL => .ok { video with videoURL := some signedURL }
    else .ok video

/-- Modelled from the spec: `generatePresignedURL` (defined in the repository
outside the given files).  The spec describes its output as a fully-qualified,
time-limited, capability-bearing URL for the bucket and key, so the model
renders the standard presigned form: the object's https URL carrying the
expiry (in seconds) and a signature as query parameters. -/
def generatePresignedURL (bucket key : Str) (expireNs : Nat) : Except Str Str :=
  .ok ("https://".data ++ bucket ++ ".s3.amazonaws.com/".data ++ key
        ++ "?X-Amz-Expires=".data ++ (Nat.repr (expireNs / 1000000000)).data
        ++ "&X-Amz-Signature=deadbeef".data)

deriving instance DecidableEq for Except

/-- `mimeToExt` from the thumbnail-upload file: maps a raw Content-Type header
to a file extension, defaulting to `bin`. -/
def mimeToExt (mime : Str) : Str :=
  if mime = "image/jpeg".data then "jpg".data
  else if mime = "image/png".data then "png".data
  else if mime = "image/gif".data then "gif".data
  else "bin".data

/-- The relational store's video table, keyed by video id. -/
abbrev DBTable := List (Nat × Video)

/-- `cfg.db.GetVideo`: point lookup by id. -/
def getVideoRow (db : DBTable) (id : Nat) : Option Video :=
  match db with
  | [] => none
  | (k, v) :: rest => if k = id then some v else getVideoRow rest id

/-- `cfg.db.UpdateVideo`: replace the row whose key is the video's own id. -/
def updateVideoRow (db : DBTable) (v : Video) : DBTable :=
  match db with
  | [] => []
  | (k, w) :: rest => if k = v.id then (k, v) :: rest else (k, w) :: updateVideoRow rest v

/-- The persistent state the handlers can touch: the video table, the local
asset directory (path ↦ contents) and the object store (bucket, key, body). -/
structure World where
  db : DBTable
  files : List (Str × Str)
  s3 : List (Str × Str × Str)
deriving DecidableEq

/-- A multipart form file as the handlers see it: the raw Content-Type header
and the payload. -/
structure FormFile where
  contentType : Str
  content : Str
deriving DecidableEq, Repr

/-- An inbound upload request, cut at the outcomes of the routing and header
helpers the spec places out of scope: the result of `uuid.Parse` on the path
parameter, the result of `auth.GetBearerToken`, and the result of
`r.FormFile`. -/
structure UploadReq where
  parsedVideoID : Option Nat
  bearerToken : Option Str
  formFile : Option FormFile
deriving DecidableEq

/-- Oracles for the external collaborators: JWT validation and MIME parsing
as functions, and the success/failure outcome and the generated key of each
I/O call the handlers make. -/
structure ExtCalls where
  validateJWT : Str → Option Nat
  parseMediaType : Str → Option Str
  tempOk : Bool
  randOk : Bool
  s3KeyString : Str
  s3Ok : Bool
  createOk : Bool
  copyOk : Bool
  updOk : Bool

/-- `handlerUploadVideo` from `handler_upload_video.go`, as a function from
request and world to (HTTP status, the `videoURL` field of the JSON response
when one is served, new world).  Control flow follows the Go source line by
line: id parse 400, missing/invalid JWT 401, GetVideo failure 500, ownership
mismatch 404, form-file failure 400, unparsable media type 400, non-mp4 415;
on the mp4 path: temp-file/rand failures 500 before any write, S3 put failure
500 with nothing written, then the permanent-form URL is built, the row
updated (500 on failure, with the S3 object already stored), and the URL is
served back. -/
def handlerUploadVideo (cfg : APIConfig) (ext : ExtCalls) (req : UploadReq)
    (w : World) : Nat × Option Str × World :=
  match req.parsedVideoID with
  | none => (400, none, w)
  | some videoID =>
    match req.bearerToken with
    | none => (401, none, w)
    | some token =>
      match ext.validateJWT token with
      | none => (401, none, w)
      | some userID =>
        match getVideoRow w.db videoID with
        | none => (500, none, w)
        | some video =>
          if video.userID ≠ userID then (404, none, w)
          else
            match req.formFile with
            | none => (400, none, w)
            | some file =>
              match ext.parseMediaType file.contentType with
              | none => (400, none, w)
              | some mediaType =>
                if mediaType = "video/mp4".data then
                  if ext.tempOk = false then (500, none, w)
                  else if ext.randOk = false then (500, none, w)
                  else if ext.s3Ok = false then (500, none, w)
                  else
                    let w1 : World :=
                      { w with s3 := (cfg.s3Bucket, ext.s3KeyString, file.content) :: w.s3 }
                    let videoURL :=
                      "https://".data ++ cfg.s3Bucket ++ ".s3.".data ++ cfg.s3Region
                        ++ ".amazonaws.com/".data ++ ext.s3KeyString
                    let video' := { video with videoURL := some videoURL }
                    if ext.updOk = false then (500, none, w1)
                    else (200, some videoURL, { w1 with db := updateVideoRow w1.db video' })
                else (415, none, w)

/-- `handlerUploadThumbnail` from the thumbnail-upload file, as a function
from request and world to (HTTP status, new world).  Control flow follows the
Go source: id parse 400, missing/invalid JWT 401, form-file failure 400; then
the asset file is created and written on disk (500 on create/copy failure,
the file remaining once created); only after that the video row is loaded
(500 on failure), ownership checked (401 on mismatch), and the row updated
with the thumbnail URL. -/
def handlerUploadThumbnail (cfg : APIConfig) (ext : ExtCalls) (req : UploadReq)
    (w : World) : Nat × World :=
  match req.parsedVideoID with
  | none => (400, w)
  | some videoID =>
    match req.bearerToken with
    | none => (401, w)
    | some token =>
      match ext.validateJWT token with
      | none => (401, w)
      | some userID =>
        match req.formFile with
        | none => (400, w)
        | some file =>
          let mediaType := file.contentType
          let fileName := (Nat.repr videoID).data ++ ".".data ++ mimeToExt mediaType
          let pathToFile := cfg.assetsRoot ++ "/".data ++ fileName
          if ext.createOk = false then (500, w)
          else
            let w1 : World :=
              { w with files := (pathToFile, if ext.copyOk then file.content else []) :: w.files }
            if ext.copyOk = false then (500, w1)
            else
              let thumbnailURL :=
                "http://localhost:".data ++ cfg.port ++ "/assets/".data ++ fileName
              match getVideoRow w1.db videoID with
              | none => (500, w1)
              | some video =>
                if video.userID ≠ userID then (401, w1)
                else
                  let video' := { video with thumbnailURL := some thumbnailURL }
                  if ext.updOk = false then (500, w1)
                  else (200, { w1 with db := updateVideoRow w1.db video' })

/-! ### Helper lemmas about the resolver and `goSplit` -/

/-- A video with no stored media reference resolves to itself. -/
theorem resolve_of_none (cfg : APIConfig) (sign : Signer) (v : Video)
    (h : v.videoURL = none) : dbVideoToSignedVideo cfg sign v = .ok v := by
  simp [dbVideoToSignedVideo, h]

/-- A video whose reference lacks the `"<bucket>,"` prefix resolves to
itself. -/
theorem resolve_of_noBucket (cfg : APIConfig) (sign : Signer) (v : Video)
    (url : Str) (h : v.videoURL = some url)
    (hpre : goStartsWith url (cfg.s3Bucket ++ [',']) = false) :
    dbVideoToSignedVideo cfg sign v = .ok v := by
  simp [dbVideoToSignedVideo, h, hpre]

/-- On the bucket-matching branch the resolver is exactly the signer applied
to elements 0 and 1 of the comma-split reference with `signingExpiryNs`. -/
theorem resolve_of_bucket (cfg : APIConfig) (sign : Signer) (v : Video)
    (url : Str) (h : v.videoURL = some url)
    (hpre : goStartsWith url (cfg.s3Bucket ++ [',']) = true) :
    dbVideoToSignedVideo cfg sign v =
      match sign ((goSplit ',' url).getD 0 []) ((goSplit ',' url).getD 1 [])
          signingExpiryNs with
      | .error e => .error e
      | .ok signedURL => .ok { v with videoURL := some signedURL } := by
  simp [dbVideoToSignedVideo, h, hpre]

/-- `goSplit` never returns the empty list. -/
theorem goSplit_ne_nil (c : Char) (l : Str) : goSplit c l ≠ [] := by
  induction l with
  | nil => simp [goSplit]
  | cons x xs ih =>
    unfold goSplit
    cases hsp : goSplit c xs with
    | nil => simp
    | cons y ys =>
      by_cases hx : x = c <;> simp [hx]

/-- Splitting on a character that occurs in the list yields at least two
pieces. -/
theorem two_le_goSplit_length_of_mem (c : Char) (l : Str) (h : c ∈ l) :
    2 ≤ (goSplit c l).length := by
  induction l with
  | nil => cases h
  | cons x xs ih =>
    unfold goSplit
    cases hsp : goSplit c xs with
    | nil => exact absurd hsp (goSplit_ne_nil c xs)
    | cons y ys =>
      by_cases hx : x = c
      · simp [hx]
      · have hmem : c ∈ xs := by
          rcases List.mem_cons.mp h with h1 | h1
          · exact absurd h1.symm hx
          · exact h1
        have := ih hmem
        rw [hsp] at this
        simpa [hx] using this

/-! ### Concrete fixtures for witnesses and counterexamples -/

/-- A concrete configuration: bucket `mybucket`, region `us-east-1`. -/
def cfgEx : APIConfig :=
  { jwtSecret := "secret".data, assetsRoot := "assets".data,
    s3Bucket := "mybucket".data, s3Region := "us-east-1".data,
    s3CfDistribution := "cf".data, port := "8091".data }

/-- A video metadata row with no media uploaded yet. -/
def videoNoURL : Video :=
  { id := 1, userID := 42, title := "t".data, description := "d".data,
    thumbnailURL := none, videoURL := none }

/-- The raw internal media reference from the spec's test vector. -/
def rawRef : Str := "mybucket,abc123.mp4".data

/-- A video whose stored reference is the internal `"bucket,key"` form. -/
def videoBucketRef : Video :=
  { videoNoURL with id := 2, videoURL := some rawRef }

/-- The URL the modelled presigner returns for `rawRef`'s bucket and key. -/
def signedRef : Str :=
  ("https://mybucket.s3.amazonaws.com/abc123.mp4"
    ++ "?X-Amz-Expires=900&X-Amz-Signature=deadbeef").data

/-! ### The resolver claims -/

/-- C3: a video whose stored media reference is absent, or does not begin
with the configured bucket name followed by a comma, resolves to itself with
no error. -/
theorem resolve_unchanged_when_not_bucket_ref (cfg : APIConfig) (sign : Signer)
    (v : Video)
    (h : v.videoURL = none ∨
      ∃ url, v.videoURL = some url ∧
        goStartsWith url (cfg.s3Bucket ++ [',']) = false) :
    dbVideoToSignedVideo cfg sign v = .ok v := by
  rcases h with h | ⟨url, h, hpre⟩
  · exact resolve_of_none cfg sign v h
  · exact resolve_of_noBucket cfg sign v url h hpre

/-- Witness for C3 at the no-media video. -/
theorem resolve_unchanged_when_not_bucket_ref_witness :
    dbVideoToSignedVideo cfgEx (fun _ _ _ => .error "down".data) videoNoURL =
      .ok videoNoURL :=
  resolve_unchanged_when_not_bucket_ref cfgEx _ videoNoURL (Or.inl rfl)

/-- C4: on a bucket-matching reference, a successful resolve replaces only
the media-reference field with the signed URL built from elements 0 and 1 of
the comma-split reference; every other field is kept (the result is
`v` updated at `videoURL` alone). -/
theorem resolve_replaces_only_videoURL (cfg : APIConfig) (sign : Signer)
    (v : Video) (url signedURL : Str)
    (h : v.videoURL = some url)
    (hpre : goStartsWith url (cfg.s3Bucket ++ [',']) = true)
    (hsign : sign ((goSplit ',' url).getD 0 []) ((goSplit ',' url).getD 1 [])
        signingExpiryNs = .ok signedURL) :
    dbVideoToSignedVideo cfg sign v = .ok { v with videoURL := some signedURL } := by
  rw [resolve_of_bucket cfg sign v url h hpre, hsign]

/-- Witness for C4 at the `"mybucket,abc123.mp4"` video and a signer that
returns a fixed URL. -/
theorem resolve_replaces_only_videoURL_witness :
    dbVideoToSignedVideo cfgEx (fun _ _ _ => .ok "signed".data) videoBucketRef =
      .ok { videoBucketRef with videoURL := some "signed".data } :=
  resolve_replaces_only_videoURL cfgEx _ videoBucketRef rawRef "signed".data
    rfl (by decide) rfl

/-- C5: on a bucket-matching reference, a signing failure makes the whole
resolve fail with that error, and no video (in particular none carrying the
unsigned internal reference) is returned. -/
theorem resolve_propagates_signing_failure (cfg : APIConfig) (sign : Signer)
    (v : Video) (url e : Str)
    (h : v.videoURL = some url)
    (hpre : goStartsWith url (cfg.s3Bucket ++ [',']) = true)
    (hsign : sign ((goSplit ',' url).getD 0 []) ((goSplit ',' url).getD 1 [])
        signingExpiryNs = .error e) :
    dbVideoToSignedVideo cfg sign v = .error e ∧
      ∀ v' : Video, dbVideoToSignedVideo cfg sign v ≠ .ok v' := by
  have hmain : dbVideoToSignedVideo cfg sign v = .error e := by
    rw [resolve_of_bucket cfg sign v url h hpre, hsign]
  refine ⟨hmain, fun v' hcontra => ?_⟩
  rw [hmain] at hcontra
  exact Except.noConfusion hcontra

/-- Witness for C5 at the `"mybucket,abc123.mp4"` video and a signer that
always fails. -/
theorem resolve_propagates_signing_failure_witness :
    dbVideoToSignedVideo cfgEx (fun _ _ _ => .error "s3 down".data) videoBucketRef =
        .error "s3 down".data ∧
      ∀ v' : Video,
        dbVideoToSignedVideo cfgEx (fun _ _ _ => .error "s3 down".data) videoBucketRef ≠
          .ok v' :=
  resolve_propagates_signing_failure cfgEx _ videoBucketRef rawRef "s3 down".data
    rfl (by decide) rfl

set_option maxRecDepth 8000 in
/-- C6: resolving the video whose reference is exactly `"mybucket,abc123.mp4"`
(under the configuration whose bucket is `mybucket`, with the spec-modelled
presigner) yields a video whose media field is a URL distinct from the raw
reference and containing no literal occurrence of it. -/
theorem resolve_test_vector_hides_raw_reference :
    dbVideoToSignedVideo cfgEx generatePresignedURL videoBucketRef =
        .ok { videoBucketRef with videoURL := some signedRef }
      ∧ signedRef ≠ rawRef
      ∧ goContains signedRef rawRef = false := by
  refine ⟨by decide, by decide, by decide⟩

/-- C7: the expiry the resolver hands to the presigner, `15*60*1e9`
nanoseconds, is exactly 900 seconds: replacing every expiry the signer is
called with by `900 * 10^9` nanoseconds changes nothing. -/
theorem resolver_expiry_is_900_seconds :
    signingExpiryNs = 900 * 1000000000 ∧
    ∀ (cfg : APIConfig) (sign : Signer) (v : Video),
      dbVideoToSignedVideo cfg sign v =
        dbVideoToSignedVideo cfg (fun b k _ => sign b k (900 * 1000000000)) v := by
  exact ⟨rfl, fun cfg sign v => rfl⟩

/-- C9: a reference that passes the resolver's prefix check (it starts with
the bucket name and a comma) splits on commas into at least two pieces, so
the resolver's reads at indices 0 and 1 are in bounds. -/
theorem bucket_ref_split_has_two_parts (bucket url : Str)
    (h : goStartsWith url (bucket ++ [',']) = true) :
    2 ≤ (goSplit ',' url).length := by
  apply two_le_goSplit_length_of_mem
  have hp : (bucket ++ [',']) <+: url := by simpa [goStartsWith] using h
  exact hp.subset (by simp)

/-- Witness for C9 at the concrete test-vector reference. -/
theorem bucket_ref_split_has_two_parts_witness :
    2 ≤ (goSplit ',' rawRef).length :=
  bucket_ref_split_has_two_parts "mybucket".data rawRef (by decide)

/-! ### Handler fixtures -/

/-- Oracles where every external call succeeds: the token `tok42` validates
to user 42, MIME parsing returns the header verbatim, the generated S3 key is
`k1.mp4`. -/
def extOk : ExtCalls :=
  { validateJWT := fun t => if t = "tok42".data then some 42 else none,
    parseMediaType := fun s => some s,
    tempOk := true, randOk := true, s3KeyString := "k1.mp4".data, s3Ok := true,
    createOk := true, copyOk := true, updOk := true }

/-- An upload request for video 1 by the holder of `tok42`, with an mp4
form file. -/
def reqMp4 : UploadReq :=
  { parsedVideoID := some 1, bearerToken := some "tok42".data,
    formFile := some { contentType := "video/mp4".data, content := "bytes".data } }

/-- The same request with a png form file. -/
def reqPng : UploadReq :=
  { reqMp4 with
    formFile := some { contentType := "image/png".data, content := "img".data } }

/-- A world where video 1 is owned by the requester (user 42). -/
def worldOwned : World := { db := [(1, videoNoURL)], files := [], s3 := [] }

/-- Video 1 owned by a different user (7). -/
def videoOther : Video := { videoNoURL with userID := 7 }

/-- A world where video 1 is owned by user 7, not the requester. -/
def worldOther : World := { db := [(1, videoOther)], files := [], s3 := [] }

/-- C10: a media upload request that reaches media-type validation (valid id,
valid token, owning user, form file present) whose parsed Content-Type is not
`video/mp4` fails with 415 and leaves the world — object store and database —
untouched. -/
theorem upload_video_rejects_non_mp4 (cfg : APIConfig) (ext : ExtCalls)
    (req : UploadReq) (w : World) (videoID : Nat) (token : Str) (userID : Nat)
    (video : Video) (file : FormFile) (mt : Str)
    (hid : req.parsedVideoID = some videoID)
    (htok : req.bearerToken = some token)
    (hjwt : ext.validateJWT token = some userID)
    (hget : getVideoRow w.db videoID = some video)
    (hown : video.userID = userID)
    (hfile : req.formFile = some file)
    (hmt : ext.parseMediaType file.contentType = some mt)
    (hne : mt ≠ "video/mp4".data) :
    handlerUploadVideo cfg ext req w = (415, none, w) := by
  simp [handlerUploadVideo, hid, htok, hjwt, hget, hown, hfile, hmt, hne]

/-- Witness for C10: uploading a png to one's own video is rejected 415. -/
theorem upload_video_rejects_non_mp4_witness :
    handlerUploadVideo cfgEx extOk reqPng worldOwned = (415, none, worldOwned) :=
  upload_video_rejects_non_mp4 cfgEx extOk reqPng worldOwned 1 "tok42".data 42
    videoNoURL ⟨"image/png".data, "img".data⟩ "image/png".data
    rfl rfl (by decide) (by decide) rfl rfl rfl (by decide)

/-- C2 counterexample: a thumbnail-upload request carrying a valid access
token, for a video whose owner (7) differs from the requester (42), fails
with 401 — not with 404 as the claim states. -/
theorem thumbnail_owner_mismatch_is_401 :
    extOk.validateJWT "tok42".data = some 42
    ∧ getVideoRow worldOther.db 1 = some videoOther
    ∧ videoOther.userID ≠ 42
    ∧ (handlerUploadThumbnail cfgEx extOk reqMp4 worldOther).1 = 401
    ∧ (handlerUploadThumbnail cfgEx extOk reqMp4 worldOther).1 ≠ 404 := by
  refine ⟨by decide, by decide, by decide, by decide, by decide⟩

/-- C2 amended: for a request carrying a valid access token whose target
video exists (and, so that the thumbnail handler reaches its ownership check,
whose form file is present and whose file writes succeed), the video-media
upload handler fails with 404 exactly when the owner differs from the
requester, while the thumbnail upload handler fails with 401 — not 404 —
exactly when the owner differs; with equal ids both checks pass. -/
theorem ownership_status_by_handler (cfg : APIConfig) (ext : ExtCalls)
    (req : UploadReq) (w : World) (videoID : Nat) (token : Str) (userID : Nat)
    (video : Video)
    (hid : req.parsedVideoID = some videoID)
    (htok : req.bearerToken = some token)
    (hjwt : ext.validateJWT token = some userID)
    (hget : getVideoRow w.db videoID = some video)
    (hff : req.formFile ≠ none)
    (hcr : ext.createOk = true)
    (hcp : ext.copyOk = true) :
    ((handlerUploadVideo cfg ext req w).1 = 404 ↔ video.userID ≠ userID)
    ∧ ((handlerUploadThumbnail cfg ext req w).1 = 401 ↔ video.userID ≠ userID) := by
  rcases hf : req.formFile with _ | file
  · exact absurd hf hff
  constructor
  · by_cases hmis : video.userID = userID
    · simp only [handlerUploadVideo, hid, htok, hjwt, hget, hmis, hf]
      rcases hmt : ext.parseMediaType file.contentType with _ | mt
      · simp [hmt, hmis]
      · by_cases hm : mt = "video/mp4".data
        · cases ht : ext.tempOk <;> cases hr : ext.randOk <;>
            cases hs : ext.s3Ok <;> cases hu : ext.updOk <;>
            simp [hmt, hm, ht, hr, hs, hu, hmis]
        · simp [hmt, hm, hmis]
    · simp [handlerUploadVideo, hid, htok, hjwt, hget, hmis]
  · by_cases hmis : video.userID = userID
    · simp only [handlerUploadThumbnail, hid, htok, hjwt, hf, hcr, hcp]
      cases hu : ext.updOk <;> simp [hget, hmis, hu]
    · simp [handlerUploadThumbnail, hid, htok, hjwt, hget, hf, hcr, hcp, hmis]

/-- Witness for amended C2 at the mismatched-owner world. -/
theorem ownership_status_by_handler_witness :
    ((handlerUploadVideo cfgEx extOk reqMp4 worldOther).1 = 404 ↔
      videoOther.userID ≠ 42)
    ∧ ((handlerUploadThumbnail cfgEx extOk reqMp4 worldOther).1 = 401 ↔
      videoOther.userID ≠ 42) :=
  ownership_status_by_handler cfgEx extOk reqMp4 worldOther 1 "tok42".data 42
    videoOther rfl rfl (by decide) (by decide) (by decide) rfl rfl

/-- C8 counterexample: on a thumbnail upload by a valid-token requester who
does not own the video, the handler has already written the thumbnail file to
disk when the ownership check fails — the stored-file state changed. -/
theorem thumbnail_file_written_despite_mismatch :
    extOk.validateJWT "tok42".data = some 42
    ∧ videoOther.userID ≠ 42
    ∧ (handlerUploadThumbnail cfgEx extOk reqMp4 worldOther).1 = 401
    ∧ (handlerUploadThumbnail cfgEx extOk reqMp4 worldOther).2.files ≠
        worldOther.files := by
  refine ⟨by decide, by decide, by decide, by decide⟩

/-- C8 amended: when the ownership check fails on a valid-token request, the
video-media upload handler has changed nothing (it returns 404 with the world
exactly as it was), and the thumbnail upload handler has changed neither the
database nor the object store — but its thumbnail file write happens before
the check, so the on-disk asset state is not covered. -/
theorem ownership_failure_mutations (cfg : APIConfig) (ext : ExtCalls)
    (req : UploadReq) (w : World) (videoID : Nat) (token : Str) (userID : Nat)
    (video : Video)
    (hid : req.parsedVideoID = some videoID)
    (htok : req.bearerToken = some token)
    (hjwt : ext.validateJWT token = some userID)
    (hget : getVideoRow w.db videoID = some video)
    (hmis : video.userID ≠ userID) :
    handlerUploadVideo cfg ext req w = (404, none, w)
    ∧ (handlerUploadThumbnail cfg ext req w).2.db = w.db
    ∧ (handlerUploadThumbnail cfg ext req w).2.s3 = w.s3 := by
  refine ⟨by simp [handlerUploadVideo, hid, htok, hjwt, hget, hmis], ?_, ?_⟩ <;>
  · simp only [handlerUploadThumbnail, hid, htok, hjwt]
    rcases hf : req.formFile with _ | file
    · simp
    · cases hcr : ext.createOk <;> cases hcp : ext.copyOk <;>
        simp [hget, hmis, hcr, hcp]

/-- Witness for amended C8 at the mismatched-owner world. -/
theorem ownership_failure_mutations_witness :
    handlerUploadVideo cfgEx extOk reqMp4 worldOther = (404, none, worldOther)
    ∧ (handlerUploadThumbnail cfgEx extOk reqMp4 worldOther).2.db =
        worldOther.db
    ∧ (handlerUploadThumbnail cfgEx extOk reqMp4 worldOther).2.s3 =
        worldOther.s3 :=
  ownership_failure_mutations cfgEx extOk reqMp4 worldOther 1 "tok42".data 42
    videoOther rfl rfl (by decide) (by decide) (by decide)

/-- The URL the video-upload handler stores and serves for the fixture
configuration and key: the permanent virtual-hosted S3 object URL. -/
def uploadedURL : Str :=
  "https://mybucket.s3.us-east-1.amazonaws.com/k1.mp4".data

/-- The fixture video after upload: its media reference is `uploadedURL`. -/
def videoUploaded : Video := { videoNoURL with videoURL := some uploadedURL }

set_option maxRecDepth 8000 in
/-- C1 fails on the code: a successful media upload responds 200 with a
`videoURL` field that is the permanent object URL — it literally contains the
bucket name and the object key in raw form, is not the signed form, and lacks
the `"<bucket>,"` shape, so every later resolve (any signer) serves it raw
and unchanged. -/
theorem upload_serves_raw_bucket_and_key :
    (handlerUploadVideo cfgEx extOk reqMp4 worldOwned).1 = 200
    ∧ (handlerUploadVideo cfgEx extOk reqMp4 worldOwned).2.1 = some uploadedURL
    ∧ goContains uploadedURL cfgEx.s3Bucket = true
    ∧ goContains uploadedURL extOk.s3KeyString = true
    ∧ goStartsWith uploadedURL (cfgEx.s3Bucket ++ [',']) = false
    ∧ ∀ sign : Signer,
        dbVideoToSignedVideo cfgEx sign videoUploaded = .ok videoUploaded := by
  refine ⟨by decide, by decide, by decide, by decide, by decide, fun sign => ?_⟩
  exact resolve_of_noBucket cfgEx sign videoUploaded uploadedURL rfl (by decide)
